import Mathlib

/-!
Shallow embedding of the classification core of `tRNASeqTools/sorter.py`
(classes `SeqSpecs` and `Sorter`), together with theorems checking the
natural-language specification against it.

Python strings are embedded as `List Char`, Python ints as `Nat` (no
arithmetic here ever goes negative on reachable inputs; where Python
computes `length - i - 24` the loop bound guarantees non-negativity and
Nat truncation agrees with Python slicing's clamping of negative indices,
as noted at each definition).  The process-wide `stats_dict` Counter is
embedded as a structure `Stats` holding the counter keys the sorter
touches, threaded explicitly through the functions that mutate it.
-/

namespace tRNASeqTools

/-! ## The external edit-distance primitive

`sorter.py` calls `Levenshtein.distance` from the python-Levenshtein
library: the standard unit-cost Levenshtein edit distance
(insert / delete / substitute).  `lev` below is that function, written as
a structural recursion (outer recursion on the first string, inner
recursion `levAux` on the second) so that it evaluates inside the kernel.
`lev_cons_cons` recovers the textbook recurrence. -/

def levAux (x : Char) (xs : List Char) (f : List Char → Nat) : List Char → Nat
  | [] => xs.length + 1
  | y :: ys =>
      min ((if x = y then 0 else 1) + f ys)
          (min (1 + levAux x xs f ys) (1 + f (y :: ys)))

def lev : List Char → List Char → Nat
  | [], ys => ys.length
  | x :: xs, ys => levAux x xs (lev xs) ys


/-! ## `SeqSpecs` (sorter.py lines 33–49)

One field per attribute set in `SeqSpecs.__init__`, with the same defaults:
`length = 0`, `mis_count = 100` (sentinel), both error flags `True`,
empty strings, `full_length = False`, `trailer_length = 0`. -/

structure SeqSpecs where
  length : Nat
  mis_count : Nat
  t_loop_error : Bool
  acceptor_error : Bool
  seq : List Char
  seq_sub : List Char
  full_length : Bool
  t_loop_seq : List Char
  acceptor_seq : List Char
  three_trailer : List Char
  trailer_length : Nat
  anticodon : List Char
deriving Repr, DecidableEq

def SeqSpecs.init : SeqSpecs :=
  { length := 0
    mis_count := 100
    t_loop_error := true
    acceptor_error := true
    seq := []
    seq_sub := []
    full_length := false
    t_loop_seq := []
    acceptor_seq := []
    three_trailer := []
    trailer_length := 0
    anticodon := [] }

/-! ## The stats counter (`Sorter.stats_dict`, a `collections.Counter`)

One Nat field per counter key the sorter increments. -/

structure Stats where
  total_passed : Nat
  t_loop_divergence : Nat
  acceptor_divergence : Nat
  no_divergence : Nat
  div_at_0 : Nat
  div_at_1 : Nat
  div_at_2 : Nat
  div_at_3 : Nat
  div_at_8 : Nat
  div_at_neg_3 : Nat
  div_at_neg_2 : Nat
  div_at_neg_1 : Nat
  total_full_length : Nat
  short_rejected : Nat
  both_rejected : Nat
  acceptor_seq_rejected : Nat
  t_loop_seq_rejected : Nat
  total_rejected : Nat
  total_seqs : Nat
deriving Repr, DecidableEq

def Stats.zero : Stats := ⟨0, 0, 0, 0, 0, 0, 0, 0, 0, 0, 0, 0, 0, 0, 0, 0, 0, 0, 0⟩

/-- Fieldwise sum of two counter states (used only in theorem statements,
to express that the sorter's counter writes are additive deltas). -/
def addStats (a b : Stats) : Stats :=
  ⟨a.total_passed + b.total_passed,
   a.t_loop_divergence + b.t_loop_divergence,
   a.acceptor_divergence + b.acceptor_divergence,
   a.no_divergence + b.no_divergence,
   a.div_at_0 + b.div_at_0,
   a.div_at_1 + b.div_at_1,
   a.div_at_2 + b.div_at_2,
   a.div_at_3 + b.div_at_3,
   a.div_at_8 + b.div_at_8,
   a.div_at_neg_3 + b.div_at_neg_3,
   a.div_at_neg_2 + b.div_at_neg_2,
   a.div_at_neg_1 + b.div_at_neg_1,
   a.total_full_length + b.total_full_length,
   a.short_rejected + b.short_rejected,
   a.both_rejected + b.both_rejected,
   a.acceptor_seq_rejected + b.acceptor_seq_rejected,
   a.t_loop_seq_rejected + b.t_loop_seq_rejected,
   a.total_rejected + b.total_rejected,
   a.total_seqs + b.total_seqs⟩

/-! ## The anticodon extractor (external collaborator)

Modelled from the spec: `tRNASeqTools.extractor.Extractor` is not under
`src/`; the spec (§6) describes it as an external capability with two
operations returning candidate lists that the sorter only joins into a
display string.  It is embedded as an abstract pair of functions from the
(trimmed) sequence to the joined candidate string; theorems quantify over
it, so nothing proved depends on its behaviour. -/

structure Extractor where
  extract_anticodon : List Char → List Char
  extract_anticodon_not_full_length : List Char → List Char

/-! ## The sliding-window scan (`Sorter.is_tRNA`, lines 215–256)

`subStr seq i` is Python's `seq[-(i + 24):(length - i)]`: start index
`length - (i + 24)` (Nat truncation equals Python's clamping of a
too-negative start to 0), then `end - start` characters.  For every `i`
the loop actually runs (`i + 24 ≤ length`) this is the 24-base window
ending `i` bases before the 3' end. -/

def subStr (seq : List Char) (i : Nat) : List Char :=
  (seq.drop (seq.length - (i + 24))).take ((seq.length - i) - (seq.length - (i + 24)))

def gttc : List Char := ['G', 'T', 'T', 'C']

def cca : List Char := ['C', 'C', 'A']

/-- `t_loop_dist = lev("GTTC", sub_str[0:4]) + lev("C", sub_str[8])`. -/
def tLoopDist (seq : List Char) (i : Nat) : Nat :=
  lev gttc ((subStr seq i).take 4) + lev ['C'] [(subStr seq i).getD 8 ' ']

/-- `acceptor_dist = lev("CCA", sub_str[-3:])`. -/
def acceptorDist (seq : List Char) (i : Nat) : Nat :=
  lev cca ((subStr seq i).drop ((subStr seq i).length - 3))

/-- `mis_count = t_loop_dist + acceptor_dist`. -/
def misCount (seq : List Char) (i : Nat) : Nat :=
  tLoopDist seq i + acceptorDist seq i

/-- The eight-field overwrite of the record performed when
`mis_count < cur_seq_specs.mis_count` (lines 244–252): `length`,
`mis_count`, the two error flags (lines 236–243 compute them for the
current window), `seq`, `seq_sub`, `t_loop_seq`, `acceptor_seq`. -/
def updateSpecs (cur : SeqSpecs) (seq : List Char) (i : Nat) : SeqSpecs :=
  { cur with
    length := seq.length
    mis_count := misCount seq i
    t_loop_error := if tLoopDist seq i < 1 then false else true
    acceptor_error := if acceptorDist seq i < 1 then false else true
    seq := seq
    seq_sub := subStr seq i
    t_loop_seq := (subStr seq i).take 9
    acceptor_seq := (subStr seq i).drop ((subStr seq i).length - 3) }

/-- The record describing window `i` exactly: the default record with the
eight scan fields overwritten for window `i`. -/
def mkRecord (seq : List Char) (i : Nat) : SeqSpecs :=
  updateSpecs SeqSpecs.init seq i

/-- One iteration of the loop body up to the acceptance test: conditionally
overwrite the best-so-far record. -/
def scanStep (seq : List Char) (i : Nat) (cur : SeqSpecs) : SeqSpecs :=
  if misCount seq i < cur.mis_count then updateSpecs cur seq i else cur

/-- Outcome of the window loop: early return with the accepting offset and
the record at that moment, or fall-through with the final record. -/
inductive ScanOut where
  | accepted : Nat → SeqSpecs → ScanOut
  | rejected : SeqSpecs → ScanOut
deriving Repr, DecidableEq

/-- The `for i in range(...)` loop of `is_tRNA`, with `k` iterations left
and `i` the current offset: update the record, then `if mis_count < 2:
return (True, cur_seq_specs)`. -/
def scanAux (seq : List Char) : Nat → Nat → SeqSpecs → ScanOut
  | 0, _, cur => .rejected cur
  | k + 1, i, cur =>
      let cur' := scanStep seq i cur
      if misCount seq i < 2 then .accepted i cur'
      else scanAux seq k (i + 1) cur'

/-- Number of loop iterations, Python's `range(length - sub_size + 1)`:
`length - 23` with Nat truncation (0 whenever `length < 24`, matching the
empty range). -/
def numWindows (seq : List Char) : Nat := seq.length - 23

def scan (seq : List Char) : ScanOut :=
  scanAux seq (numWindows seq) 0 SeqSpecs.init

/-! ## The helpers run on acceptance (lines 125–212) -/

/-- `Sorter.check_divergence_pos` (lines 125–150).  Python's negative
indices `seq_sub[-3] / [-2] / [-1]` are `getD (len - 3)` etc. -/
def check_divergence_pos (specs : SeqSpecs) (st : Stats) : Stats :=
  if specs.t_loop_error then
    let st := { st with t_loop_divergence := st.t_loop_divergence + 1 }
    if specs.seq_sub.getD 0 ' ' ≠ 'G' then
      { st with div_at_0 := st.div_at_0 + 1 }
    else if specs.seq_sub.getD 1 ' ' ≠ 'T' then
      { st with div_at_1 := st.div_at_1 + 1 }
    else if specs.seq_sub.getD 2 ' ' ≠ 'T' then
      { st with div_at_2 := st.div_at_2 + 1 }
    else if specs.seq_sub.getD 3 ' ' ≠ 'C' then
      { st with div_at_3 := st.div_at_3 + 1 }
    else if specs.seq_sub.getD 8 ' ' ≠ 'C' then
      { st with div_at_8 := st.div_at_8 + 1 }
    else st
  else if specs.acceptor_error then
    let st := { st with acceptor_divergence := st.acceptor_divergence + 1 }
    if specs.seq_sub.getD (specs.seq_sub.length - 3) ' ' ≠ 'C' then
      { st with div_at_neg_3 := st.div_at_neg_3 + 1 }
    else if specs.seq_sub.getD (specs.seq_sub.length - 2) ' ' ≠ 'C' then
      { st with div_at_neg_2 := st.div_at_neg_2 + 1 }
    else if specs.seq_sub.getD (specs.seq_sub.length - 1) ' ' ≠ 'A' then
      { st with div_at_neg_1 := st.div_at_neg_1 + 1 }
    else st
  else
    { st with no_divergence := st.no_divergence + 1 }

/-- `Sorter.check_full_length` (lines 153–162). -/
def check_full_length (specs : SeqSpecs) (st : Stats) : SeqSpecs × Stats :=
  if 70 < specs.length ∧ specs.length < 100 then
    if specs.seq.getD 7 ' ' = 'T' ∧ specs.seq.getD 13 ' ' = 'A' then
      ({ specs with full_length := true },
       { st with total_full_length := st.total_full_length + 1 })
    else (specs, st)
  else (specs, st)

/-- `Sorter.assign_anticodons` (lines 165–173), with the external
extraction capability abstracted as `ext`. -/
def assign_anticodons (ext : Extractor) (specs : SeqSpecs) : SeqSpecs :=
  if specs.full_length then
    { specs with anticodon := ext.extract_anticodon specs.seq }
  else
    { specs with anticodon := ext.extract_anticodon_not_full_length specs.seq }

/-- `Sorter.split_3_trailer` (lines 176–185). -/
def split_3_trailer (specs : SeqSpecs) (i : Nat) : SeqSpecs :=
  let full_seq := specs.seq
  { specs with
    seq := full_seq.take (specs.length - i)
    three_trailer := full_seq.drop (specs.length - i)
    length := (full_seq.take (specs.length - i)).length
    trailer_length := (full_seq.drop (specs.length - i)).length }

/-- `Sorter.handle_pass_seq` (lines 203–212). -/
def handle_pass_seq (ext : Extractor) (specs : SeqSpecs) (i : Nat) (st : Stats) :
    SeqSpecs × Stats :=
  let st1 := { st with total_passed := st.total_passed + 1 }
  let st2 := check_divergence_pos specs st1
  let specs1 := split_3_trailer specs i
  let p := check_full_length specs1 st2
  let specs2 := assign_anticodons ext p.1
  (specs2, p.2)

/-- `Sorter.is_tRNA` (lines 215–271): run the window scan, then either the
pass pipeline or the rejection bookkeeping.  The rejection branch tests
the local `length` (the true input length) against 24, exactly as line
260 does. -/
def is_tRNA (ext : Extractor) (seq : List Char) (st : Stats) :
    Bool × SeqSpecs × Stats :=
  match scan seq with
  | .accepted i specs =>
      let p := handle_pass_seq ext specs i st
      (true, p.1, p.2)
  | .rejected specs =>
      let st1 :=
        if specs.t_loop_error && specs.acceptor_error then
          if seq.length < 24 then
            { st with short_rejected := st.short_rejected + 1 }
          else
            { st with both_rejected := st.both_rejected + 1 }
        else if specs.acceptor_error && !specs.t_loop_error then
          { st with acceptor_seq_rejected := st.acceptor_seq_rejected + 1 }
        else if specs.t_loop_error && !specs.acceptor_error then
          { st with t_loop_seq_rejected := st.t_loop_seq_rejected + 1 }
        else st
      (false, specs, { st1 with total_rejected := st1.total_rejected + 1 })


/-! ## Concrete inputs used in the checks -/

/-- A trivial instance of the external extractor, for concrete runs. -/
def ext0 : Extractor := ⟨fun _ => [], fun _ => []⟩

/-- The input of the spec's first concrete scenario:
`"AAAA" + "GTTCAAAAACAAAAAAAAAAAAAACCA"` (length 31). -/
def c2seq : List Char := ("AAAA" ++ "GTTCAAAAACAAAAAAAAAAAAAACCA").toList

/-- A 24-base window matching the canonical motif with zero mismatches:
`GTTC`, position 8 `C`, terminal `CCA`. -/
def w24 : List Char := ("GTTCAAAAC" ++ "AAAAAAAAAAAA" ++ "CCA").toList

/-- The scenario input amended so that its LAST 24 bases are exactly the
canonical motif (the spec's stated suffix is 27 bases long, so its last
24 bases start mid-motif). -/
def c2seqAmended : List Char := "AAAAAAA".toList ++ w24

/-- 24 adenines: length 24, no window qualifies. -/
def seqA24 : List Char := List.replicate 24 'A'

/-- A short input (length 4). -/
def shortSeq : List Char := "ACGT".toList

/-- An 80-base input accepted at offset 0 whose trimmed sequence passes
the full-length test (position 7 `T`, position 13 `A`, length 80). -/
def fullSeq80 : List Char :=
  List.replicate 7 'A' ++ ['T'] ++ List.replicate 48 'A' ++ w24

/-! ## Statement helpers (phrasings of spec properties, for the theorems
that compare the code against them) -/

/-- The positional part of the t-loop divergence attribution: the counter
of the FIRST of positions 0, 1, 2, 3, 8 of `sub` diverging from
`G, T, T, C, C` goes up by one, and the other four t-loop positional
counters are unchanged. -/
def tLoopFirstDivergence (sub : List Char) (st st' : Stats) : Prop :=
  (sub.getD 0 ' ' ≠ 'G' ∧ st'.div_at_0 = st.div_at_0 + 1 ∧
    st'.div_at_1 = st.div_at_1 ∧ st'.div_at_2 = st.div_at_2 ∧
    st'.div_at_3 = st.div_at_3 ∧ st'.div_at_8 = st.div_at_8) ∨
  (sub.getD 0 ' ' = 'G' ∧ sub.getD 1 ' ' ≠ 'T' ∧
    st'.div_at_0 = st.div_at_0 ∧ st'.div_at_1 = st.div_at_1 + 1 ∧
    st'.div_at_2 = st.div_at_2 ∧ st'.div_at_3 = st.div_at_3 ∧
    st'.div_at_8 = st.div_at_8) ∨
  (sub.getD 0 ' ' = 'G' ∧ sub.getD 1 ' ' = 'T' ∧ sub.getD 2 ' ' ≠ 'T' ∧
    st'.div_at_0 = st.div_at_0 ∧ st'.div_at_1 = st.div_at_1 ∧
    st'.div_at_2 = st.div_at_2 + 1 ∧ st'.div_at_3 = st.div_at_3 ∧
    st'.div_at_8 = st.div_at_8) ∨
  (sub.getD 0 ' ' = 'G' ∧ sub.getD 1 ' ' = 'T' ∧ sub.getD 2 ' ' = 'T' ∧
    sub.getD 3 ' ' ≠ 'C' ∧
    st'.div_at_0 = st.div_at_0 ∧ st'.div_at_1 = st.div_at_1 ∧
    st'.div_at_2 = st.div_at_2 ∧ st'.div_at_3 = st.div_at_3 + 1 ∧
    st'.div_at_8 = st.div_at_8) ∨
  (sub.getD 0 ' ' = 'G' ∧ sub.getD 1 ' ' = 'T' ∧ sub.getD 2 ' ' = 'T' ∧
    sub.getD 3 ' ' = 'C' ∧ sub.getD 8 ' ' ≠ 'C' ∧
    st'.div_at_0 = st.div_at_0 ∧ st'.div_at_1 = st.div_at_1 ∧
    st'.div_at_2 = st.div_at_2 ∧ st'.div_at_3 = st.div_at_3 ∧
    st'.div_at_8 = st.div_at_8 + 1)

/-- The positional part of the acceptor divergence attribution: the
counter of the FIRST of positions -3, -2, -1 of `sub` diverging from
`C, C, A` goes up by one, and the other two are unchanged. -/
def acceptorFirstDivergence (sub : List Char) (st st' : Stats) : Prop :=
  (sub.getD (sub.length - 3) ' ' ≠ 'C' ∧
    st'.div_at_neg_3 = st.div_at_neg_3 + 1 ∧
    st'.div_at_neg_2 = st.div_at_neg_2 ∧ st'.div_at_neg_1 = st.div_at_neg_1) ∨
  (sub.getD (sub.length - 3) ' ' = 'C' ∧ sub.getD (sub.length - 2) ' ' ≠ 'C' ∧
    st'.div_at_neg_3 = st.div_at_neg_3 ∧
    st'.div_at_neg_2 = st.div_at_neg_2 + 1 ∧ st'.div_at_neg_1 = st.div_at_neg_1) ∨
  (sub.getD (sub.length - 3) ' ' = 'C' ∧ sub.getD (sub.length - 2) ' ' = 'C' ∧
    sub.getD (sub.length - 1) ' ' ≠ 'A' ∧
    st'.div_at_neg_3 = st.div_at_neg_3 ∧
    st'.div_at_neg_2 = st.div_at_neg_2 ∧ st'.div_at_neg_1 = st.div_at_neg_1 + 1)


/-- The record a scan outcome carries. -/
def scanSpecs : ScanOut → SeqSpecs
  | .accepted _ s => s
  | .rejected s => s

/-- How many windows the loop evaluated before the outcome: an acceptance
at offset `i` evaluated windows `0..i`; a fall-through evaluated all of
them. -/
def evaluatedCount (seq : List Char) : ScanOut → Nat
  | .accepted i _ => i + 1
  | .rejected _ => numWindows seq

/-! ## Facts about the edit-distance primitive -/

theorem lev_nil_left (ys : List Char) : lev [] ys = ys.length := rfl

theorem lev_nil_right (x : Char) (xs : List Char) :
    lev (x :: xs) [] = xs.length + 1 := rfl

theorem lev_cons_cons (x y : Char) (xs ys : List Char) :
    lev (x :: xs) (y :: ys) =
      min ((if x = y then 0 else 1) + lev xs ys)
          (min (1 + lev (x :: xs) ys) (1 + lev xs (y :: ys))) := rfl

/-- The edit distance of two strings is at most the longer length
(substitute everything, then insert or delete the overhang). -/
theorem lev_le_max (a : List Char) : ∀ b : List Char,
    lev a b ≤ max a.length b.length := by
  induction a with
  | nil => intro b; simp [lev]
  | cons x xs ih =>
      intro b
      induction b with
      | nil => simp [lev_nil_right]
      | cons y ys ihb =>
          rw [lev_cons_cons]
          have h1 := ih ys
          refine le_trans (min_le_left _ _) ?_
          by_cases hxy : x = y <;> simp [hxy, List.length_cons] <;> omega

/-- Edit distance vanishes exactly on equal strings. -/
theorem lev_eq_zero_iff (a : List Char) : ∀ b : List Char,
    lev a b = 0 ↔ a = b := by
  induction a with
  | nil =>
      intro b
      cases b <;> simp [lev]
  | cons x xs ih =>
      intro b
      induction b with
      | nil => simp [lev_nil_right]
      | cons y ys ihb =>
          rw [lev_cons_cons]
          constructor
          · intro h
            rcases Nat.min_eq_zero_iff.mp h with h1 | h2
            · by_cases hxy : x = y
              · subst hxy
                rw [if_pos rfl, Nat.zero_add] at h1
                rw [(ih ys).mp h1]
              · rw [if_neg hxy] at h1; omega
            · rcases Nat.min_eq_zero_iff.mp h2 with h3 | h4 <;> omega
          · intro he
            injection he with hx hxs
            subst hx; subst hxs
            have h0 : lev xs xs = 0 := (ih xs).mpr rfl
            simp [h0]

theorem lev_self (a : List Char) : lev a a = 0 := (lev_eq_zero_iff a a).mpr rfl

theorem lev_pos_of_ne {a b : List Char} (h : a ≠ b) : 1 ≤ lev a b := by
  rcases Nat.eq_zero_or_pos (lev a b) with h0 | h1
  · exact absurd ((lev_eq_zero_iff a b).mp h0) h
  · exact h1

/-! ## Basic facts about the window and the record -/

theorem getD_eq_getElem' {l : List Char} {n : Nat} (d : Char) (h : n < l.length) :
    l.getD n d = l[n] := by
  simp [List.getD_eq_getElem?_getD, List.getElem?_eq_getElem h]

theorem subStr_length {seq : List Char} {i : Nat} (h : i < numWindows seq) :
    (subStr seq i).length = 24 := by
  unfold numWindows at h
  unfold subStr
  rw [List.length_take, List.length_drop]
  omega

theorem misCount_le_8 {seq : List Char} {i : Nat} (h : i < numWindows seq) :
    misCount seq i ≤ 8 := by
  have h24 := subStr_length h
  have h1 : lev gttc ((subStr seq i).take 4) ≤ 4 := by
    have hb := lev_le_max gttc ((subStr seq i).take 4)
    have hl : ((subStr seq i).take 4).length = 4 := by
      rw [List.length_take, h24]
      decide
    rw [hl] at hb
    simpa [gttc] using hb
  have h2 : lev ['C'] [(subStr seq i).getD 8 ' '] ≤ 1 := by
    simpa using lev_le_max ['C'] [(subStr seq i).getD 8 ' ']
  have h3 : lev cca ((subStr seq i).drop ((subStr seq i).length - 3)) ≤ 3 := by
    have hb := lev_le_max cca ((subStr seq i).drop ((subStr seq i).length - 3))
    have hl : ((subStr seq i).drop ((subStr seq i).length - 3)).length = 3 := by
      rw [List.length_drop, h24]
    rw [hl] at hb
    simpa [cca] using hb
  unfold misCount tLoopDist acceptorDist
  omega

theorem mkRecord_mis_count (seq : List Char) (i : Nat) :
    (mkRecord seq i).mis_count = misCount seq i := rfl

theorem mkRecord_t_loop_error (seq : List Char) (i : Nat) :
    (mkRecord seq i).t_loop_error = true ↔ 1 ≤ tLoopDist seq i := by
  unfold mkRecord updateSpecs
  simp only []
  split_ifs with h
  · simp; omega
  · simp; omega

theorem mkRecord_acceptor_error (seq : List Char) (i : Nat) :
    (mkRecord seq i).acceptor_error = true ↔ 1 ≤ acceptorDist seq i := by
  unfold mkRecord updateSpecs
  simp only []
  split_ifs with h
  · simp; omega
  · simp; omega

/-- The conditional overwrite in the loop body writes the same record
whether the incumbent is the initial record or an earlier window's record:
the fields it does not overwrite are still at their defaults in both. -/
theorem updateSpecs_eq (seq : List Char) (i : Nat) (cur : SeqSpecs)
    (h : cur = SeqSpecs.init ∨ ∃ j, cur = mkRecord seq j) :
    updateSpecs cur seq i = mkRecord seq i := by
  rcases h with rfl | ⟨j, rfl⟩
  · rfl
  · rfl

/-! ## The scan-loop invariant

`scanAux_correct` is the induction over the loop: provided every window
already evaluated scored at least 2 (otherwise the loop would have
returned) and the incumbent record is either still the default or the
first-best record of some evaluated window, then
- an accepted outcome names the first qualifying offset and the record of
  exactly that window, and
- a fall-through outcome means no window qualified and the final record is
  the default (nothing evaluated, or everything scored at least the
  sentinel 100) or the record of the first window attaining the minimum
  score among all evaluated windows. -/

theorem scanAux_correct (seq : List Char) :
    ∀ (k i : Nat) (cur : SeqSpecs),
      (∀ j, j < i → 2 ≤ misCount seq j) →
      ((cur = SeqSpecs.init ∧ (∀ j, j < i → 100 ≤ misCount seq j)) ∨
        (∃ j, j < i ∧ cur = mkRecord seq j ∧
          (∀ j', j' < i → misCount seq j ≤ misCount seq j') ∧
          (∀ j', j' < j → misCount seq j < misCount seq j'))) →
      (∀ a s, scanAux seq k i cur = .accepted a s →
          i ≤ a ∧ a < i + k ∧ misCount seq a < 2 ∧
          (∀ j, j < a → 2 ≤ misCount seq j) ∧ s = mkRecord seq a) ∧
      (∀ s, scanAux seq k i cur = .rejected s →
          (∀ j, j < i + k → 2 ≤ misCount seq j) ∧
          ((s = SeqSpecs.init ∧ (∀ j, j < i + k → 100 ≤ misCount seq j)) ∨
            (∃ j, j < i + k ∧ s = mkRecord seq j ∧
              (∀ j', j' < i + k → misCount seq j ≤ misCount seq j') ∧
              (∀ j', j' < j → misCount seq j < misCount seq j')))) := by
  intro k
  induction k with
  | zero =>
      intro i cur h1 h2
      constructor
      · intro a s h
        exact absurd h (by simp [scanAux])
      · intro s h
        have hs : cur = s := by simpa [scanAux] using h
        subst hs
        simpa using ⟨h1, h2⟩
  | succ k ih =>
      intro i cur h1 h2
      have hshape : cur = SeqSpecs.init ∨ ∃ j, cur = mkRecord seq j := by
        rcases h2 with ⟨rfl, _⟩ | ⟨j, _, rfl, _, _⟩
        · exact Or.inl rfl
        · exact Or.inr ⟨j, rfl⟩
      have hcurmis : (cur.mis_count = 100 ∧ (∀ j, j < i → 100 ≤ misCount seq j)) ∨
          ∃ j, j < i ∧ cur.mis_count = misCount seq j ∧
            (∀ j', j' < i → misCount seq j ≤ misCount seq j') := by
        rcases h2 with ⟨heq, hbig⟩ | ⟨j, hj, heq, hmin, _⟩
        · exact Or.inl ⟨by rw [heq]; rfl, hbig⟩
        · exact Or.inr ⟨j, hj, by rw [heq]; rfl, hmin⟩
      have hunf : scanAux seq (k + 1) i cur =
          (if misCount seq i < 2 then .accepted i (scanStep seq i cur)
           else scanAux seq k (i + 1) (scanStep seq i cur)) := rfl
      by_cases hacc : misCount seq i < 2
      · -- the window at offset i is accepted immediately
        have hstep : scanStep seq i cur = mkRecord seq i := by
          unfold scanStep
          have hlt : misCount seq i < cur.mis_count := by
            rcases hcurmis with h100 | ⟨j, hj, hc, _⟩
            · omega
            · have := h1 j hj; omega
          rw [if_pos hlt]
          exact updateSpecs_eq seq i cur hshape
        rw [hunf, if_pos hacc, hstep]
        constructor
        · intro a s h
          obtain ⟨rfl, rfl⟩ := (ScanOut.accepted.injEq _ _ _ _).mp h
          exact ⟨le_refl _, by omega, hacc, h1, rfl⟩
        · intro s h
          exact absurd h (by simp)
      · -- the window at offset i scores at least 2: the loop moves left
        have h1' : ∀ j, j < i + 1 → 2 ≤ misCount seq j := by
          intro j hj
          by_cases hji : j < i
          · exact h1 j hji
          · have : j = i := by omega
            subst this; omega
        have h2' : ((scanStep seq i cur = SeqSpecs.init ∧
              (∀ j, j < i + 1 → 100 ≤ misCount seq j)) ∨
            (∃ j, j < i + 1 ∧ scanStep seq i cur = mkRecord seq j ∧
              (∀ j', j' < i + 1 → misCount seq j ≤ misCount seq j') ∧
              (∀ j', j' < j → misCount seq j < misCount seq j'))) := by
          unfold scanStep
          by_cases hlt : misCount seq i < cur.mis_count
          · rw [if_pos hlt]
            refine Or.inr ⟨i, by omega, updateSpecs_eq seq i cur hshape, ?_, ?_⟩
            · intro j' hj'
              by_cases hji : j' < i
              · rcases hcurmis with ⟨h100, hbig⟩ | ⟨j0, hj0, hc, hmin0⟩
                · have := hbig j' hji; omega
                · have := hmin0 j' hji; omega
              · have : j' = i := by omega
                subst this; exact le_refl _
            · intro j' hj'
              rcases hcurmis with ⟨h100, hbig⟩ | ⟨j0, hj0, hc, hmin0⟩
              · have := hbig j' hj'; omega
              · have := hmin0 j' hj'; omega
          · rw [if_neg hlt]
            rcases h2 with ⟨rfl, hbig⟩ | ⟨j0, hj0, rfl, hmin, hstr⟩
            · refine Or.inl ⟨rfl, ?_⟩
              intro j hj
              by_cases hji : j < i
              · exact hbig j hji
              · have : j = i := by omega
                subst this
                have : (SeqSpecs.init).mis_count = 100 := rfl
                omega
            · refine Or.inr ⟨j0, by omega, rfl, ?_, hstr⟩
              intro j' hj'
              by_cases hji : j' < i
              · exact hmin j' hji
              · have hji' : j' = i := by omega
                subst hji'
                have : (mkRecord seq j0).mis_count = misCount seq j0 := rfl
                omega
        rw [hunf, if_neg hacc]
        obtain ⟨IH1, IH2⟩ := ih (i + 1) (scanStep seq i cur) h1' h2'
        constructor
        · intro a s h
          obtain ⟨g1, g2, g3, g4, g5⟩ := IH1 a s h
          exact ⟨by omega, by omega, g3, g4, g5⟩
        · intro s h
          obtain ⟨g1, g2⟩ := IH2 s h
          refine ⟨fun j hj => g1 j (by omega), ?_⟩
          rcases g2 with ⟨hs, hb⟩ | ⟨j, hj, hs, hmn, hst⟩
          · exact Or.inl ⟨hs, fun j hj => hb j (by omega)⟩
          · exact Or.inr ⟨j, by omega, hs, fun j' hj' => hmn j' (by omega), hst⟩

/-! ## Consequences of the scan invariant -/

theorem scan_accepted {seq : List Char} {i : Nat} {s : SeqSpecs}
    (h : scan seq = .accepted i s) :
    i < numWindows seq ∧ misCount seq i < 2 ∧
      (∀ j, j < i → 2 ≤ misCount seq j) ∧ s = mkRecord seq i := by
  have H := (scanAux_correct seq (numWindows seq) 0 SeqSpecs.init
    (by intro j hj; omega)
    (Or.inl ⟨rfl, by intro j hj; omega⟩)).1 i s h
  obtain ⟨_, g2, g3, g4, g5⟩ := H
  exact ⟨by omega, g3, g4, g5⟩

theorem scan_rejected {seq : List Char} {s : SeqSpecs}
    (h : scan seq = .rejected s) :
    (∀ j, j < numWindows seq → 2 ≤ misCount seq j) ∧
      ((s = SeqSpecs.init ∧ (∀ j, j < numWindows seq → 100 ≤ misCount seq j)) ∨
        (∃ j, j < numWindows seq ∧ s = mkRecord seq j ∧
          (∀ j', j' < numWindows seq → misCount seq j ≤ misCount seq j') ∧
          (∀ j', j' < j → misCount seq j < misCount seq j'))) := by
  have H := (scanAux_correct seq (numWindows seq) 0 SeqSpecs.init
    (by intro j hj; omega)
    (Or.inl ⟨rfl, by intro j hj; omega⟩)).2 s h
  obtain ⟨g1, g2⟩ := H
  refine ⟨fun j hj => g1 j (by omega), ?_⟩
  rcases g2 with ⟨hs, hb⟩ | ⟨j, hj, hs, hmn, hst⟩
  · exact Or.inl ⟨hs, fun j hj => hb j (by omega)⟩
  · exact Or.inr ⟨j, by omega, hs, fun j' hj' => hmn j' (by omega), hst⟩

/-- A completed scan over an input of at least 24 bases left the record at
the first window attaining the minimum score: the sentinel cannot survive
because every window scores at most 8. -/
theorem scan_rejected_long {seq : List Char} {s : SeqSpecs}
    (h24 : 24 ≤ seq.length) (h : scan seq = .rejected s) :
    ∃ j, j < numWindows seq ∧ s = mkRecord seq j ∧
      2 ≤ misCount seq j ∧ misCount seq j ≤ 8 ∧
      (∀ j', j' < numWindows seq → misCount seq j ≤ misCount seq j') ∧
      (∀ j', j' < j → misCount seq j < misCount seq j') := by
  have h0 : 0 < numWindows seq := by unfold numWindows; omega
  obtain ⟨hall, hcase⟩ := scan_rejected h
  rcases hcase with ⟨_, hbig⟩ | ⟨j, hj, hs, hmin, hstrict⟩
  · have hb := hbig 0 h0
    have hle := @misCount_le_8 seq 0 h0
    omega
  · exact ⟨j, hj, hs, hall j hj, misCount_le_8 hj, hmin, hstrict⟩

/-- An input shorter than the window never enters the loop. -/
theorem scan_short {seq : List Char} (h : seq.length < 24) :
    scan seq = .rejected SeqSpecs.init := by
  have h0 : numWindows seq = 0 := by unfold numWindows; omega
  rw [scan, h0]
  rfl

theorem mkRecord_t_loop_error_false (seq : List Char) (i : Nat) :
    (mkRecord seq i).t_loop_error = false ↔ tLoopDist seq i = 0 := by
  have hiff := mkRecord_t_loop_error seq i
  constructor
  · intro hf
    rw [hf] at hiff
    simp at hiff
    omega
  · intro h0
    cases hb : (mkRecord seq i).t_loop_error
    · rfl
    · rw [hb] at hiff; simp at hiff; omega

theorem mkRecord_acceptor_error_false (seq : List Char) (i : Nat) :
    (mkRecord seq i).acceptor_error = false ↔ acceptorDist seq i = 0 := by
  have hiff := mkRecord_acceptor_error seq i
  constructor
  · intro hf
    rw [hf] at hiff
    simp at hiff
    omega
  · intro h0
    cases hb : (mkRecord seq i).acceptor_error
    · rfl
    · rw [hb] at hiff; simp at hiff; omega

/-- A rejected best window scored at least 2, so at least one of its two
component distances is at least 1 and the matching flag is set. -/
theorem rejected_some_flag {seq : List Char} {j : Nat}
    (h2le : 2 ≤ misCount seq j) :
    (mkRecord seq j).t_loop_error = true ∨ (mkRecord seq j).acceptor_error = true := by
  have hd : 1 ≤ tLoopDist seq j ∨ 1 ≤ acceptorDist seq j := by
    unfold misCount at h2le; omega
  rcases hd with h | h
  · exact Or.inl ((mkRecord_t_loop_error seq j).mpr h)
  · exact Or.inr ((mkRecord_acceptor_error seq j).mpr h)

/-- Destructuring a 24-character window into its characters. -/
theorem list_len24 {l : List Char} (h : l.length = 24) :
    ∃ c0 c1 c2 c3 c4 c5 c6 c7 c8 c9 c10 c11 c12 c13 c14 c15 c16 c17 c18 c19 c20 c21 c22 c23,
      l = [c0, c1, c2, c3, c4, c5, c6, c7, c8, c9, c10, c11, c12, c13, c14, c15, c16, c17, c18, c19, c20, c21, c22, c23] := by
  rcases l with _ | ⟨c0, l⟩
  · simp at h
  rcases l with _ | ⟨c1, l⟩
  · simp at h
  rcases l with _ | ⟨c2, l⟩
  · simp at h
  rcases l with _ | ⟨c3, l⟩
  · simp at h
  rcases l with _ | ⟨c4, l⟩
  · simp at h
  rcases l with _ | ⟨c5, l⟩
  · simp at h
  rcases l with _ | ⟨c6, l⟩
  · simp at h
  rcases l with _ | ⟨c7, l⟩
  · simp at h
  rcases l with _ | ⟨c8, l⟩
  · simp at h
  rcases l with _ | ⟨c9, l⟩
  · simp at h
  rcases l with _ | ⟨c10, l⟩
  · simp at h
  rcases l with _ | ⟨c11, l⟩
  · simp at h
  rcases l with _ | ⟨c12, l⟩
  · simp at h
  rcases l with _ | ⟨c13, l⟩
  · simp at h
  rcases l with _ | ⟨c14, l⟩
  · simp at h
  rcases l with _ | ⟨c15, l⟩
  · simp at h
  rcases l with _ | ⟨c16, l⟩
  · simp at h
  rcases l with _ | ⟨c17, l⟩
  · simp at h
  rcases l with _ | ⟨c18, l⟩
  · simp at h
  rcases l with _ | ⟨c19, l⟩
  · simp at h
  rcases l with _ | ⟨c20, l⟩
  · simp at h
  rcases l with _ | ⟨c21, l⟩
  · simp at h
  rcases l with _ | ⟨c22, l⟩
  · simp at h
  rcases l with _ | ⟨c23, l⟩
  · simp at h
  rcases l with _ | ⟨c24, l⟩
  · exact ⟨c0, c1, c2, c3, c4, c5, c6, c7, c8, c9, c10, c11, c12, c13, c14, c15, c16, c17, c18, c19, c20, c21, c22, c23, rfl⟩
  · simp at h

/-- If the five tested t-loop positions of an evaluated window all carry
the expected characters, its t-loop distance is zero. -/
theorem tLoopDist_eq_zero_of_match {seq : List Char} {i : Nat}
    (h : i < numWindows seq)
    (h0 : (subStr seq i).getD 0 ' ' = 'G') (h1 : (subStr seq i).getD 1 ' ' = 'T')
    (h2 : (subStr seq i).getD 2 ' ' = 'T') (h3 : (subStr seq i).getD 3 ' ' = 'C')
    (h8 : (subStr seq i).getD 8 ' ' = 'C') : tLoopDist seq i = 0 := by
  obtain ⟨c0, c1, c2, c3, c4, c5, c6, c7, c8, c9, c10, c11, c12, c13, c14, c15, c16, c17, c18, c19, c20, c21, c22, c23, hs⟩ := list_len24 (subStr_length h)
  rw [hs] at h0 h1 h2 h3 h8
  unfold tLoopDist
  rw [hs]
  have e0 : c0 = 'G' := h0
  have e1 : c1 = 'T' := h1
  have e2 : c2 = 'T' := h2
  have e3 : c3 = 'C' := h3
  have e8 : c8 = 'C' := h8
  subst e0; subst e1; subst e2; subst e3; subst e8
  show lev gttc gttc + lev ['C'] ['C'] = 0
  rw [lev_self, lev_self]

/-- If the three tested acceptor positions of an evaluated window all
carry the expected characters, its acceptor distance is zero. -/
theorem acceptorDist_eq_zero_of_match {seq : List Char} {i : Nat}
    (h : i < numWindows seq)
    (hm3 : (subStr seq i).getD ((subStr seq i).length - 3) ' ' = 'C')
    (hm2 : (subStr seq i).getD ((subStr seq i).length - 2) ' ' = 'C')
    (hm1 : (subStr seq i).getD ((subStr seq i).length - 1) ' ' = 'A') :
    acceptorDist seq i = 0 := by
  have h24 := subStr_length h
  rw [h24] at hm3 hm2 hm1
  obtain ⟨c0, c1, c2, c3, c4, c5, c6, c7, c8, c9, c10, c11, c12, c13, c14, c15, c16, c17, c18, c19, c20, c21, c22, c23, hs⟩ := list_len24 h24
  rw [hs] at hm3 hm2 hm1
  unfold acceptorDist
  rw [hs]
  have e21 : c21 = 'C' := hm3
  have e22 : c22 = 'C' := hm2
  have e23 : c23 = 'A' := hm1
  subst e21; subst e22; subst e23
  show lev cca cca = 0
  exact lev_self cca


/-! ## Counter writes are additive deltas -/

theorem addStats_zero_left (a : Stats) : addStats Stats.zero a = a := by
  cases a
  simp [addStats, Stats.zero]

theorem addStats_assoc (a b c : Stats) :
    addStats (addStats a b) c = addStats a (addStats b c) := by
  cases a; cases b; cases c
  simp [addStats, Nat.add_assoc]

theorem check_divergence_pos_add (sp : SeqSpecs) (st : Stats) :
    check_divergence_pos sp st = addStats st (check_divergence_pos sp Stats.zero) := by
  unfold check_divergence_pos
  split_ifs <;> rfl

theorem check_full_length_fst (sp : SeqSpecs) (st st' : Stats) :
    (check_full_length sp st).1 = (check_full_length sp st').1 := by
  unfold check_full_length
  split_ifs <;> rfl

theorem check_full_length_snd_add (sp : SeqSpecs) (st : Stats) :
    (check_full_length sp st).2 = addStats st ((check_full_length sp Stats.zero).2) := by
  unfold check_full_length
  split_ifs <;> rfl

theorem handle_pass_seq_add (ext : Extractor) (sp : SeqSpecs) (i : Nat) (st : Stats) :
    (handle_pass_seq ext sp i st).1 = (handle_pass_seq ext sp i Stats.zero).1 ∧
    (handle_pass_seq ext sp i st).2 =
      addStats st ((handle_pass_seq ext sp i Stats.zero).2) := by
  constructor
  · show assign_anticodons ext (check_full_length (split_3_trailer sp i)
        (check_divergence_pos sp { st with total_passed := st.total_passed + 1 })).1 =
      assign_anticodons ext (check_full_length (split_3_trailer sp i)
        (check_divergence_pos sp
          { Stats.zero with total_passed := Stats.zero.total_passed + 1 })).1
    exact congrArg _ (check_full_length_fst _ _ _)
  · show (check_full_length (split_3_trailer sp i)
        (check_divergence_pos sp { st with total_passed := st.total_passed + 1 })).2 =
      addStats st ((check_full_length (split_3_trailer sp i)
        (check_divergence_pos sp
          { Stats.zero with total_passed := Stats.zero.total_passed + 1 })).2)
    rw [check_full_length_snd_add, check_divergence_pos_add]
    conv_rhs => rw [check_full_length_snd_add, check_divergence_pos_add]
    rw [show ({ st with total_passed := st.total_passed + 1 }) =
        addStats st ({ Stats.zero with
          total_passed := Stats.zero.total_passed + 1 }) from rfl]
    rw [addStats_assoc, addStats_assoc]
    conv_rhs => rw [addStats_assoc]

/-- The verdict and the record returned by `is_tRNA` do not depend on the
incoming counter state, and the counter result is the incoming state plus
the delta the same call produces from zero. -/
theorem is_tRNA_add (ext : Extractor) (seq : List Char) (st : Stats) :
    is_tRNA ext seq st =
      ((is_tRNA ext seq Stats.zero).1, (is_tRNA ext seq Stats.zero).2.1,
        addStats st ((is_tRNA ext seq Stats.zero).2.2)) := by
  cases hscan : scan seq with
  | accepted i sp =>
      unfold is_tRNA
      rw [hscan]
      dsimp only
      obtain ⟨h1, h2⟩ := handle_pass_seq_add ext sp i st
      rw [h1, h2]
  | rejected sp =>
      unfold is_tRNA
      rw [hscan]
      dsimp only
      split_ifs <;> rfl


/-! ## Field bookkeeping for the acceptance pipeline -/

theorem assign_anticodons_seq (ext : Extractor) (sp : SeqSpecs) :
    (assign_anticodons ext sp).seq = sp.seq := by
  unfold assign_anticodons
  split_ifs <;> rfl

theorem assign_anticodons_length (ext : Extractor) (sp : SeqSpecs) :
    (assign_anticodons ext sp).length = sp.length := by
  unfold assign_anticodons
  split_ifs <;> rfl

theorem assign_anticodons_three_trailer (ext : Extractor) (sp : SeqSpecs) :
    (assign_anticodons ext sp).three_trailer = sp.three_trailer := by
  unfold assign_anticodons
  split_ifs <;> rfl

theorem assign_anticodons_trailer_length (ext : Extractor) (sp : SeqSpecs) :
    (assign_anticodons ext sp).trailer_length = sp.trailer_length := by
  unfold assign_anticodons
  split_ifs <;> rfl

theorem assign_anticodons_t_loop_error (ext : Extractor) (sp : SeqSpecs) :
    (assign_anticodons ext sp).t_loop_error = sp.t_loop_error := by
  unfold assign_anticodons
  split_ifs <;> rfl

theorem assign_anticodons_acceptor_error (ext : Extractor) (sp : SeqSpecs) :
    (assign_anticodons ext sp).acceptor_error = sp.acceptor_error := by
  unfold assign_anticodons
  split_ifs <;> rfl

theorem assign_anticodons_seq_sub (ext : Extractor) (sp : SeqSpecs) :
    (assign_anticodons ext sp).seq_sub = sp.seq_sub := by
  unfold assign_anticodons
  split_ifs <;> rfl

theorem assign_anticodons_full_length (ext : Extractor) (sp : SeqSpecs) :
    (assign_anticodons ext sp).full_length = sp.full_length := by
  unfold assign_anticodons
  split_ifs <;> rfl

theorem assign_anticodons_mis_count (ext : Extractor) (sp : SeqSpecs) :
    (assign_anticodons ext sp).mis_count = sp.mis_count := by
  unfold assign_anticodons
  split_ifs <;> rfl

theorem check_full_length_fst_seq (sp : SeqSpecs) (st : Stats) :
    (check_full_length sp st).1.seq = sp.seq := by
  unfold check_full_length
  split_ifs <;> rfl

theorem check_full_length_fst_length (sp : SeqSpecs) (st : Stats) :
    (check_full_length sp st).1.length = sp.length := by
  unfold check_full_length
  split_ifs <;> rfl

theorem check_full_length_fst_three_trailer (sp : SeqSpecs) (st : Stats) :
    (check_full_length sp st).1.three_trailer = sp.three_trailer := by
  unfold check_full_length
  split_ifs <;> rfl

theorem check_full_length_fst_trailer_length (sp : SeqSpecs) (st : Stats) :
    (check_full_length sp st).1.trailer_length = sp.trailer_length := by
  unfold check_full_length
  split_ifs <;> rfl

theorem check_full_length_fst_t_loop_error (sp : SeqSpecs) (st : Stats) :
    (check_full_length sp st).1.t_loop_error = sp.t_loop_error := by
  unfold check_full_length
  split_ifs <;> rfl

theorem check_full_length_fst_acceptor_error (sp : SeqSpecs) (st : Stats) :
    (check_full_length sp st).1.acceptor_error = sp.acceptor_error := by
  unfold check_full_length
  split_ifs <;> rfl

theorem check_full_length_fst_seq_sub (sp : SeqSpecs) (st : Stats) :
    (check_full_length sp st).1.seq_sub = sp.seq_sub := by
  unfold check_full_length
  split_ifs <;> rfl

theorem check_full_length_fst_mis_count (sp : SeqSpecs) (st : Stats) :
    (check_full_length sp st).1.mis_count = sp.mis_count := by
  unfold check_full_length
  split_ifs <;> rfl

theorem check_full_length_snd_total_passed (sp : SeqSpecs) (st : Stats) :
    (check_full_length sp st).2.total_passed = st.total_passed := by
  unfold check_full_length
  split_ifs <;> rfl

theorem check_full_length_snd_t_loop_divergence (sp : SeqSpecs) (st : Stats) :
    (check_full_length sp st).2.t_loop_divergence = st.t_loop_divergence := by
  unfold check_full_length
  split_ifs <;> rfl

theorem check_full_length_snd_acceptor_divergence (sp : SeqSpecs) (st : Stats) :
    (check_full_length sp st).2.acceptor_divergence = st.acceptor_divergence := by
  unfold check_full_length
  split_ifs <;> rfl

theorem check_full_length_snd_no_divergence (sp : SeqSpecs) (st : Stats) :
    (check_full_length sp st).2.no_divergence = st.no_divergence := by
  unfold check_full_length
  split_ifs <;> rfl

theorem check_full_length_snd_div_at_0 (sp : SeqSpecs) (st : Stats) :
    (check_full_length sp st).2.div_at_0 = st.div_at_0 := by
  unfold check_full_length
  split_ifs <;> rfl

theorem check_full_length_snd_div_at_1 (sp : SeqSpecs) (st : Stats) :
    (check_full_length sp st).2.div_at_1 = st.div_at_1 := by
  unfold check_full_length
  split_ifs <;> rfl

theorem check_full_length_snd_div_at_2 (sp : SeqSpecs) (st : Stats) :
    (check_full_length sp st).2.div_at_2 = st.div_at_2 := by
  unfold check_full_length
  split_ifs <;> rfl

theorem check_full_length_snd_div_at_3 (sp : SeqSpecs) (st : Stats) :
    (check_full_length sp st).2.div_at_3 = st.div_at_3 := by
  unfold check_full_length
  split_ifs <;> rfl

theorem check_full_length_snd_div_at_8 (sp : SeqSpecs) (st : Stats) :
    (check_full_length sp st).2.div_at_8 = st.div_at_8 := by
  unfold check_full_length
  split_ifs <;> rfl

theorem check_full_length_snd_div_at_neg_3 (sp : SeqSpecs) (st : Stats) :
    (check_full_length sp st).2.div_at_neg_3 = st.div_at_neg_3 := by
  unfold check_full_length
  split_ifs <;> rfl

theorem check_full_length_snd_div_at_neg_2 (sp : SeqSpecs) (st : Stats) :
    (check_full_length sp st).2.div_at_neg_2 = st.div_at_neg_2 := by
  unfold check_full_length
  split_ifs <;> rfl

theorem check_full_length_snd_div_at_neg_1 (sp : SeqSpecs) (st : Stats) :
    (check_full_length sp st).2.div_at_neg_1 = st.div_at_neg_1 := by
  unfold check_full_length
  split_ifs <;> rfl

theorem check_full_length_snd_short_rejected (sp : SeqSpecs) (st : Stats) :
    (check_full_length sp st).2.short_rejected = st.short_rejected := by
  unfold check_full_length
  split_ifs <;> rfl

theorem check_full_length_snd_both_rejected (sp : SeqSpecs) (st : Stats) :
    (check_full_length sp st).2.both_rejected = st.both_rejected := by
  unfold check_full_length
  split_ifs <;> rfl

theorem check_full_length_snd_acceptor_seq_rejected (sp : SeqSpecs) (st : Stats) :
    (check_full_length sp st).2.acceptor_seq_rejected = st.acceptor_seq_rejected := by
  unfold check_full_length
  split_ifs <;> rfl

theorem check_full_length_snd_t_loop_seq_rejected (sp : SeqSpecs) (st : Stats) :
    (check_full_length sp st).2.t_loop_seq_rejected = st.t_loop_seq_rejected := by
  unfold check_full_length
  split_ifs <;> rfl

theorem check_full_length_snd_total_rejected (sp : SeqSpecs) (st : Stats) :
    (check_full_length sp st).2.total_rejected = st.total_rejected := by
  unfold check_full_length
  split_ifs <;> rfl

theorem check_full_length_snd_total_seqs (sp : SeqSpecs) (st : Stats) :
    (check_full_length sp st).2.total_seqs = st.total_seqs := by
  unfold check_full_length
  split_ifs <;> rfl

theorem check_full_length_snd_cases (sp : SeqSpecs) (st : Stats) :
    (check_full_length sp st).2 = st ∨
      (check_full_length sp st).2 =
        { st with total_full_length := st.total_full_length + 1 } := by
  unfold check_full_length
  split_ifs
  · exact Or.inr rfl
  · exact Or.inl rfl
  · exact Or.inl rfl


theorem split_3_trailer_t_loop_error (sp : SeqSpecs) (i : Nat) :
    (split_3_trailer sp i).t_loop_error = sp.t_loop_error := rfl

theorem split_3_trailer_acceptor_error (sp : SeqSpecs) (i : Nat) :
    (split_3_trailer sp i).acceptor_error = sp.acceptor_error := rfl

theorem split_3_trailer_seq_sub (sp : SeqSpecs) (i : Nat) :
    (split_3_trailer sp i).seq_sub = sp.seq_sub := rfl

theorem split_3_trailer_full_length (sp : SeqSpecs) (i : Nat) :
    (split_3_trailer sp i).full_length = sp.full_length := rfl


/-! ## What `check_divergence_pos` does in each branch -/

/-- The t-loop branch: provided at least one of the five tested positions
diverges (true for every record with the flag set whose window really has
t-loop distance at least 1), `t_loop_divergence` goes up by one, the
other two attribution counters and the acceptor positional counters are
unchanged, and exactly the first diverging position's counter goes up. -/
theorem check_divergence_pos_tloop (sp : SeqSpecs) (st : Stats)
    (hb : sp.t_loop_error = true)
    (hnotall : ¬(sp.seq_sub.getD 0 ' ' = 'G' ∧ sp.seq_sub.getD 1 ' ' = 'T' ∧
      sp.seq_sub.getD 2 ' ' = 'T' ∧ sp.seq_sub.getD 3 ' ' = 'C' ∧
      sp.seq_sub.getD 8 ' ' = 'C')) :
    (check_divergence_pos sp st).t_loop_divergence = st.t_loop_divergence + 1 ∧
    (check_divergence_pos sp st).acceptor_divergence = st.acceptor_divergence ∧
    (check_divergence_pos sp st).no_divergence = st.no_divergence ∧
    (check_divergence_pos sp st).div_at_neg_3 = st.div_at_neg_3 ∧
    (check_divergence_pos sp st).div_at_neg_2 = st.div_at_neg_2 ∧
    (check_divergence_pos sp st).div_at_neg_1 = st.div_at_neg_1 ∧
    tLoopFirstDivergence sp.seq_sub st (check_divergence_pos sp st) := by
  unfold check_divergence_pos tLoopFirstDivergence
  split_ifs with g0 g1 g2 g3 g8
  · exact ⟨rfl, rfl, rfl, rfl, rfl, rfl, Or.inl ⟨g0, rfl, rfl, rfl, rfl, rfl⟩⟩
  · exact ⟨rfl, rfl, rfl, rfl, rfl, rfl,
      Or.inr (Or.inl ⟨not_not.mp g0, g1, rfl, rfl, rfl, rfl, rfl⟩)⟩
  · exact ⟨rfl, rfl, rfl, rfl, rfl, rfl,
      Or.inr (Or.inr (Or.inl
        ⟨not_not.mp g0, not_not.mp g1, g2, rfl, rfl, rfl, rfl, rfl⟩))⟩
  · exact ⟨rfl, rfl, rfl, rfl, rfl, rfl,
      Or.inr (Or.inr (Or.inr (Or.inl
        ⟨not_not.mp g0, not_not.mp g1, not_not.mp g2, g3, rfl, rfl, rfl, rfl, rfl⟩)))⟩
  · exact ⟨rfl, rfl, rfl, rfl, rfl, rfl,
      Or.inr (Or.inr (Or.inr (Or.inr
        ⟨not_not.mp g0, not_not.mp g1, not_not.mp g2, not_not.mp g3, g8,
          rfl, rfl, rfl, rfl, rfl⟩)))⟩
  · exact absurd ⟨not_not.mp g0, not_not.mp g1, not_not.mp g2, not_not.mp g3,
      not_not.mp g8⟩ hnotall

/-- The acceptor branch, symmetrically. -/
theorem check_divergence_pos_acceptor (sp : SeqSpecs) (st : Stats)
    (hb : sp.t_loop_error = false) (ha : sp.acceptor_error = true)
    (hnotall : ¬(sp.seq_sub.getD (sp.seq_sub.length - 3) ' ' = 'C' ∧
      sp.seq_sub.getD (sp.seq_sub.length - 2) ' ' = 'C' ∧
      sp.seq_sub.getD (sp.seq_sub.length - 1) ' ' = 'A')) :
    (check_divergence_pos sp st).acceptor_divergence = st.acceptor_divergence + 1 ∧
    (check_divergence_pos sp st).t_loop_divergence = st.t_loop_divergence ∧
    (check_divergence_pos sp st).no_divergence = st.no_divergence ∧
    (check_divergence_pos sp st).div_at_0 = st.div_at_0 ∧
    (check_divergence_pos sp st).div_at_1 = st.div_at_1 ∧
    (check_divergence_pos sp st).div_at_2 = st.div_at_2 ∧
    (check_divergence_pos sp st).div_at_3 = st.div_at_3 ∧
    (check_divergence_pos sp st).div_at_8 = st.div_at_8 ∧
    acceptorFirstDivergence sp.seq_sub st (check_divergence_pos sp st) := by
  unfold check_divergence_pos acceptorFirstDivergence
  split_ifs with hc g0 g1 g2 g3 g8 a0 a1 a2
  · rw [hb] at hc; exact absurd hc (by simp)
  · rw [hb] at hc; exact absurd hc (by simp)
  · rw [hb] at hc; exact absurd hc (by simp)
  · rw [hb] at hc; exact absurd hc (by simp)
  · rw [hb] at hc; exact absurd hc (by simp)
  · rw [hb] at hc; exact absurd hc (by simp)
  · exact ⟨rfl, rfl, rfl, rfl, rfl, rfl, rfl, rfl,
      Or.inl ⟨a0, rfl, rfl, rfl⟩⟩
  · exact ⟨rfl, rfl, rfl, rfl, rfl, rfl, rfl, rfl,
      Or.inr (Or.inl ⟨not_not.mp a0, a1, rfl, rfl, rfl⟩)⟩
  · exact ⟨rfl, rfl, rfl, rfl, rfl, rfl, rfl, rfl,
      Or.inr (Or.inr ⟨not_not.mp a0, not_not.mp a1, a2, rfl, rfl, rfl⟩)⟩
  · exact absurd ⟨not_not.mp a0, not_not.mp a1, not_not.mp a2⟩ hnotall

/-- The no-divergence branch: with both flags down, only `no_divergence`
moves. -/
theorem check_divergence_pos_none (sp : SeqSpecs) (st : Stats)
    (hb : sp.t_loop_error = false) (ha : sp.acceptor_error = false) :
    check_divergence_pos sp st =
      { st with no_divergence := st.no_divergence + 1 } := by
  unfold check_divergence_pos
  simp [hb, ha]

/-! ## Inverting the classifier's verdict -/

/-- An accepting run names an accepted offset whose freshly overwritten
record feeds the pass pipeline. -/
theorem is_tRNA_true_inv {ext : Extractor} {seq : List Char} {st : Stats}
    {specs : SeqSpecs} {st' : Stats}
    (h : is_tRNA ext seq st = (true, specs, st')) :
    ∃ i, i < numWindows seq ∧ misCount seq i < 2 ∧
      (∀ j, j < i → 2 ≤ misCount seq j) ∧
      scan seq = .accepted i (mkRecord seq i) ∧
      specs = (handle_pass_seq ext (mkRecord seq i) i st).1 ∧
      st' = (handle_pass_seq ext (mkRecord seq i) i st).2 := by
  cases hscan : scan seq with
  | accepted i sp =>
      obtain ⟨hw, hm, hprev, hsp⟩ := scan_accepted hscan
      subst hsp
      unfold is_tRNA at h
      rw [hscan] at h
      simp only [Prod.mk.injEq, true_and] at h
      obtain ⟨h1, h2⟩ := h
      exact ⟨i, hw, hm, hprev, rfl, h1.symm, h2.symm⟩
  | rejected sp =>
      have hfst := congrArg Prod.fst h
      unfold is_tRNA at hfst
      rw [hscan] at hfst
      simp at hfst

theorem check_divergence_pos_total_full_length (sp : SeqSpecs) (st : Stats) :
    (check_divergence_pos sp st).total_full_length = st.total_full_length := by
  unfold check_divergence_pos
  split_ifs <;> rfl

/-- What `check_full_length` does when the incoming record's flag is at
its default `false`: the flag comes out `true` exactly on the length
range plus the two conserved positions, and the counter moves exactly
with the flag. -/
theorem check_full_length_spec (sp : SeqSpecs) (st : Stats)
    (hfl : sp.full_length = false) :
    ((check_full_length sp st).1.full_length = true ↔
      (70 < sp.length ∧ sp.length < 100 ∧
        sp.seq.getD 7 ' ' = 'T' ∧ sp.seq.getD 13 ' ' = 'A')) ∧
    ((check_full_length sp st).1.full_length = true →
      (check_full_length sp st).2 =
        { st with total_full_length := st.total_full_length + 1 }) ∧
    ((check_full_length sp st).1.full_length = false →
      (check_full_length sp st).2 = st) := by
  unfold check_full_length
  split_ifs with h1 h2
  · refine ⟨⟨fun _ => ⟨h1.1, h1.2, h2.1, h2.2⟩, fun _ => rfl⟩, fun _ => rfl, ?_⟩
    intro hx
    exact absurd hx (by simp)
  · refine ⟨⟨?_, ?_⟩, ?_, fun _ => rfl⟩
    · intro hx; rw [hfl] at hx; exact absurd hx (by simp)
    · intro hr; exact absurd ⟨hr.2.2.1, hr.2.2.2⟩ h2
    · intro hx; rw [hfl] at hx; exact absurd hx (by simp)
  · refine ⟨⟨?_, ?_⟩, ?_, fun _ => rfl⟩
    · intro hx; rw [hfl] at hx; exact absurd hx (by simp)
    · intro hr; exact absurd ⟨hr.1, hr.2.1⟩ h1
    · intro hx; rw [hfl] at hx; exact absurd hx (by simp)

/-! ## The claims -/

/-- **C5.** For every input shorter than 24 bases (the empty string
included) no window is evaluated: the verdict is a rejection whose record
is still the pessimistic default (`mis_count` at the sentinel 100, both
error flags true, `length` 0, `trailer_length` 0), and `short_rejected`
and `total_rejected` each go up by one. -/
theorem short_input_rejected (ext : Extractor) (st : Stats) (seq : List Char)
    (h : seq.length < 24) :
    is_tRNA ext seq st =
      (false, SeqSpecs.init,
        { st with short_rejected := st.short_rejected + 1,
                  total_rejected := st.total_rejected + 1 }) ∧
    SeqSpecs.init.mis_count = 100 ∧ SeqSpecs.init.t_loop_error = true ∧
    SeqSpecs.init.acceptor_error = true ∧ SeqSpecs.init.length = 0 ∧
    SeqSpecs.init.trailer_length = 0 := by
  refine ⟨?_, rfl, rfl, rfl, rfl, rfl⟩
  have hscan := scan_short h
  unfold is_tRNA
  rw [hscan]
  dsimp only
  rw [if_pos h]
  rfl

/-- **C5 (witness).** The concrete short input `"ACGT"`. -/
theorem short_input_rejected_witness :
    is_tRNA ext0 shortSeq Stats.zero =
      (false, SeqSpecs.init,
        { Stats.zero with
            short_rejected := Stats.zero.short_rejected + 1,
            total_rejected := Stats.zero.total_rejected + 1 }) ∧
    SeqSpecs.init.mis_count = 100 ∧ SeqSpecs.init.t_loop_error = true ∧
    SeqSpecs.init.acceptor_error = true ∧ SeqSpecs.init.length = 0 ∧
    SeqSpecs.init.trailer_length = 0 :=
  short_input_rejected ext0 Stats.zero shortSeq (by decide)

set_option maxHeartbeats 2000000 in
/-- **C2 (counterexample).** On the spec's stated input
`"AAAA" + "GTTCAAAAACAAAAAAAAAAAAAACCA"` the classifier does NOT accept:
the suffix written in the spec is 27 bases long, so the window at offset
0 starts mid-motif and scores 5, no window scores below 2, the verdict is
a rejection, and `no_divergence` and `total_passed` stay at zero. -/
theorem c2_scenario_false :
    (is_tRNA ext0 c2seq Stats.zero).1 = false ∧
    misCount c2seq 0 = 5 ∧
    (is_tRNA ext0 c2seq Stats.zero).2.2.no_divergence = 0 ∧
    (is_tRNA ext0 c2seq Stats.zero).2.2.total_passed = 0 := by
  refine ⟨?_, ?_, ?_, ?_⟩ <;> decide

set_option maxHeartbeats 2000000 in
/-- **C2 (amended).** On the input amended so that its LAST 24 bases are
exactly the canonical motif (`"AAAAAAA" + "GTTCAAAAC" + 12·"A" + "CCA"`,
length 31), the classifier accepts at offset 0 with `mis_count` 0, both
error flags false, and `no_divergence` and `total_passed` each go up by
one. -/
theorem c2_scenario_amended (st : Stats) :
    (is_tRNA ext0 c2seqAmended st).1 = true ∧
    scan c2seqAmended = .accepted 0 (mkRecord c2seqAmended 0) ∧
    misCount c2seqAmended 0 = 0 ∧
    (mkRecord c2seqAmended 0).t_loop_error = false ∧
    (mkRecord c2seqAmended 0).acceptor_error = false ∧
    (is_tRNA ext0 c2seqAmended st).2.2.no_divergence = st.no_divergence + 1 ∧
    (is_tRNA ext0 c2seqAmended st).2.2.total_passed = st.total_passed + 1 := by
  exact ⟨rfl, by decide, by decide, by decide, by decide, rfl, rfl⟩

/-- **C1.** Whenever the classifier accepts, it accepted at an offset `i`
with `i + 24 ≤ L`: the window at `i` is the first with
`mis_count < 2` (every window at a smaller offset scored at least 2, so
the accepting window strictly improved on the best so far and overwrote
the record), the scan returned at that moment, and the record returned by
the scan is exactly the freshly built record of window `i`. -/
theorem first_qualifying_window_accepted (ext : Extractor) (seq : List Char)
    (st : Stats) (specs : SeqSpecs) (st' : Stats)
    (h : is_tRNA ext seq st = (true, specs, st')) :
    ∃ i, i + 24 ≤ seq.length ∧
      scan seq = .accepted i (mkRecord seq i) ∧
      misCount seq i < 2 ∧
      (∀ j, j < i → 2 ≤ misCount seq j) := by
  obtain ⟨i, hw, hm, hprev, hscan, -, -⟩ := is_tRNA_true_inv h
  unfold numWindows at hw
  exact ⟨i, by omega, hscan, hm, hprev⟩

/-- **C1 (witness).** The canonical 24-base motif is accepted at offset 0. -/
theorem first_qualifying_window_accepted_witness :
    ∃ i, i + 24 ≤ w24.length ∧
      scan w24 = .accepted i (mkRecord w24 i) ∧
      misCount w24 i < 2 ∧
      (∀ j, j < i → 2 ≤ misCount w24 j) :=
  first_qualifying_window_accepted ext0 w24 Stats.zero
    ((is_tRNA ext0 w24 Stats.zero).2.1) ((is_tRNA ext0 w24 Stats.zero).2.2) rfl

/-- **C9.** Classification is deterministic and the counters are pure
additive side effects: the verdict and the record do not depend on the
incoming counter state at all (so two calls on the same string, in any
interleaving of counter updates, agree bit for bit), and the outgoing
counters are the incoming ones plus the delta the same input produces
from a zero state. -/
theorem classification_deterministic (ext : Extractor) (seq : List Char)
    (st1 st2 : Stats) :
    (is_tRNA ext seq st1).1 = (is_tRNA ext seq st2).1 ∧
    (is_tRNA ext seq st1).2.1 = (is_tRNA ext seq st2).2.1 ∧
    (is_tRNA ext seq st1).2.2 = addStats st1 ((is_tRNA ext seq Stats.zero).2.2) := by
  rw [is_tRNA_add ext seq st1, is_tRNA_add ext seq st2]
  exact ⟨rfl, rfl, rfl⟩

/-- **C4.** Best-so-far updates are atomic and strict: whatever record
the scan ends with (accepted or not) is either the untouched default
(nothing was ever evaluated) or the complete eight-field record of some
evaluated window `j` — never a mixture — and that `j` is the first
window attaining the minimum score among all evaluated windows, i.e.
every overwrite happened only on strict improvement. -/
theorem record_updates_atomic (seq : List Char) :
    (evaluatedCount seq (scan seq) = 0 ∧ scanSpecs (scan seq) = SeqSpecs.init) ∨
    (∃ j, j < evaluatedCount seq (scan seq) ∧
      scanSpecs (scan seq) = mkRecord seq j ∧
      (∀ k, k < evaluatedCount seq (scan seq) → misCount seq j ≤ misCount seq k) ∧
      (∀ k, k < j → misCount seq j < misCount seq k)) := by
  cases hscan : scan seq with
  | accepted i sp =>
      obtain ⟨hw, hm, hprev, hsp⟩ := scan_accepted hscan
      subst hsp
      right
      refine ⟨i, by simp [evaluatedCount], rfl, ?_, ?_⟩
      · intro k hk
        simp only [evaluatedCount] at hk
        by_cases hki : k < i
        · have := hprev k hki; omega
        · have hk' : k = i := by omega
          subst hk'; exact le_refl _
      · intro k hk
        have := hprev k hk; omega
  | rejected sp =>
      obtain ⟨hall, hcase⟩ := scan_rejected hscan
      rcases hcase with ⟨hs, hbig⟩ | ⟨j, hj, hs, hmin, hstr⟩
      · by_cases h0 : numWindows seq = 0
        · left
          exact ⟨by simp [evaluatedCount, h0], hs⟩
        · have h0' : 0 < numWindows seq := by omega
          have := hbig 0 h0'
          have := @misCount_le_8 seq 0 h0'
          omega
      · right
        exact ⟨j, by simpa [evaluatedCount] using hj, hs,
          fun k hk => hmin k (by simpa [evaluatedCount] using hk), hstr⟩

/-- **C3.** A completed scan with no acceptance classifies the rejection
from the best-seen record's error flags: both flags set gives
`short_rejected` when the record's `length` is below 24 and
`both_rejected` otherwise (the code compares the true input length, but
on every reachable rejection the record's `length` agrees with it: 0 for
short inputs, the input length otherwise); only the acceptor flag gives
`acceptor_seq_rejected`; only the t-loop flag gives
`t_loop_seq_rejected`; `total_rejected` always goes up by one and the
verdict is `(false, record)`. -/
theorem rejection_classification (ext : Extractor) (seq : List Char) (st : Stats)
    (specs : SeqSpecs) (st' : Stats)
    (h : is_tRNA ext seq st = (false, specs, st')) :
    st'.total_rejected = st.total_rejected + 1 ∧
    (specs.t_loop_error = true → specs.acceptor_error = true →
      ((specs.length < 24 →
          st'.short_rejected = st.short_rejected + 1 ∧
          st'.both_rejected = st.both_rejected) ∧
        (¬ specs.length < 24 →
          st'.both_rejected = st.both_rejected + 1 ∧
          st'.short_rejected = st.short_rejected)) ∧
      st'.acceptor_seq_rejected = st.acceptor_seq_rejected ∧
      st'.t_loop_seq_rejected = st.t_loop_seq_rejected) ∧
    (specs.acceptor_error = true → specs.t_loop_error = false →
      st'.acceptor_seq_rejected = st.acceptor_seq_rejected + 1 ∧
      st'.short_rejected = st.short_rejected ∧
      st'.both_rejected = st.both_rejected ∧
      st'.t_loop_seq_rejected = st.t_loop_seq_rejected) ∧
    (specs.t_loop_error = true → specs.acceptor_error = false →
      st'.t_loop_seq_rejected = st.t_loop_seq_rejected + 1 ∧
      st'.short_rejected = st.short_rejected ∧
      st'.both_rejected = st.both_rejected ∧
      st'.acceptor_seq_rejected = st.acceptor_seq_rejected) := by
  cases hscan : scan seq with
  | accepted i sp =>
      have hfst := congrArg Prod.fst h
      unfold is_tRNA at hfst
      rw [hscan] at hfst
      simp at hfst
  | rejected sp =>
      unfold is_tRNA at h
      rw [hscan] at h
      simp only [Prod.mk.injEq, true_and] at h
      obtain ⟨h1, h2⟩ := h
      subst h1
      subst h2
      by_cases hL : seq.length < 24
      · have hspinit : sp = SeqSpecs.init := by
          have hs := scan_short hL
          rw [hscan] at hs
          exact (ScanOut.rejected.injEq _ _).mp hs
        subst hspinit
        refine ⟨by simp [SeqSpecs.init, hL], ?_, ?_, ?_⟩
        · intro _ _
          refine ⟨⟨fun _ => by simp [SeqSpecs.init, hL], fun hx => absurd (by decide) hx⟩,
            by simp [SeqSpecs.init, hL], by simp [SeqSpecs.init, hL]⟩
        · intro _ hb
          exact absurd hb (by decide)
        · intro _ ha
          exact absurd ha (by decide)
      · obtain ⟨j, hj, hsp, h2le, h8le, -, -⟩ :=
          scan_rejected_long (by omega) hscan
        subst hsp
        have hor := @rejected_some_flag seq j h2le
        have hlen : ¬ (mkRecord seq j).length < 24 := hL
        cases hbt : (mkRecord seq j).t_loop_error with
        | false =>
            cases hba : (mkRecord seq j).acceptor_error with
            | false =>
                rcases hor with hx | hx
                · rw [hbt] at hx; exact absurd hx (by simp)
                · rw [hba] at hx; exact absurd hx (by simp)
            | true =>
                refine ⟨by simp [hL], ?_, ?_, ?_⟩
                · intro hx _; exact absurd hx (by simp)
                · intro _ _
                  exact ⟨by simp [hL], by simp [hL], by simp [hL], by simp [hL]⟩
                · intro hx _; exact absurd hx (by simp)
        | true =>
            cases hba : (mkRecord seq j).acceptor_error with
            | false =>
                refine ⟨by simp [hL], ?_, ?_, ?_⟩
                · intro _ hx; exact absurd hx (by simp)
                · intro hx _; exact absurd hx (by simp)
                · intro _ _
                  exact ⟨by simp [hL], by simp [hL], by simp [hL], by simp [hL]⟩
            | true =>
                refine ⟨by simp [hL], ?_, ?_, ?_⟩
                · intro _ _
                  refine ⟨⟨fun hx => absurd hx hlen, fun _ =>
                      ⟨by simp [hL], by simp [hL]⟩⟩,
                    by simp [hL], by simp [hL]⟩
                · intro _ hx; exact absurd hx (by simp)
                · intro _ hx; exact absurd hx (by simp)

set_option maxHeartbeats 2000000 in
/-- **C3 (witness).** 24 adenines: both flags set, length 24, so
`both_rejected` and `total_rejected` each go up by one. -/
theorem rejection_classification_witness :
    (is_tRNA ext0 seqA24 Stats.zero).2.2.total_rejected =
      Stats.zero.total_rejected + 1 :=
  (rejection_classification ext0 seqA24 Stats.zero
    ((is_tRNA ext0 seqA24 Stats.zero).2.1)
    ((is_tRNA ext0 seqA24 Stats.zero).2.2) rfl).1

/-- **C10.** Every rejection of an input of at least 24 bases carries a
record whose `length` is the true input length (the first window always
replaced the sentinel, every window scoring at most 8), whose best score
is between 2 and 8, and at least one error flag set; exactly one of
`both_rejected`, `acceptor_seq_rejected`, `t_loop_seq_rejected` goes up
(by one), `short_rejected` never moves, and `total_rejected` goes up by
one. -/
theorem long_rejection_flags (ext : Extractor) (seq : List Char) (st : Stats)
    (specs : SeqSpecs) (st' : Stats)
    (h24 : 24 ≤ seq.length)
    (h : is_tRNA ext seq st = (false, specs, st')) :
    specs.length = seq.length ∧
    2 ≤ specs.mis_count ∧ specs.mis_count ≤ 8 ∧
    (specs.t_loop_error = true ∨ specs.acceptor_error = true) ∧
    ((st'.both_rejected = st.both_rejected + 1 ∧
        st'.acceptor_seq_rejected = st.acceptor_seq_rejected ∧
        st'.t_loop_seq_rejected = st.t_loop_seq_rejected) ∨
      (st'.both_rejected = st.both_rejected ∧
        st'.acceptor_seq_rejected = st.acceptor_seq_rejected + 1 ∧
        st'.t_loop_seq_rejected = st.t_loop_seq_rejected) ∨
      (st'.both_rejected = st.both_rejected ∧
        st'.acceptor_seq_rejected = st.acceptor_seq_rejected ∧
        st'.t_loop_seq_rejected = st.t_loop_seq_rejected + 1)) ∧
    st'.short_rejected = st.short_rejected ∧
    st'.total_rejected = st.total_rejected + 1 := by
  cases hscan : scan seq with
  | accepted i sp =>
      have hfst := congrArg Prod.fst h
      unfold is_tRNA at hfst
      rw [hscan] at hfst
      simp at hfst
  | rejected sp =>
      unfold is_tRNA at h
      rw [hscan] at h
      simp only [Prod.mk.injEq, true_and] at h
      obtain ⟨h1, h2⟩ := h
      subst h1
      subst h2
      obtain ⟨j, hj, hsp, h2le, h8le, -, -⟩ := scan_rejected_long h24 hscan
      subst hsp
      have hor := @rejected_some_flag seq j h2le
      have hL : ¬ seq.length < 24 := by omega
      cases hbt : (mkRecord seq j).t_loop_error with
      | false =>
          cases hba : (mkRecord seq j).acceptor_error with
          | false =>
              rcases hor with hx | hx
              · rw [hbt] at hx; exact absurd hx (by simp)
              · rw [hba] at hx; exact absurd hx (by simp)
          | true =>
              exact ⟨rfl, h2le, h8le, Or.inr rfl,
                Or.inr (Or.inl ⟨by simp [hL], by simp [hL], by simp [hL]⟩),
                by simp [hL], by simp [hL]⟩
      | true =>
          cases hba : (mkRecord seq j).acceptor_error with
          | false =>
              exact ⟨rfl, h2le, h8le, Or.inl rfl,
                Or.inr (Or.inr ⟨by simp [hL], by simp [hL], by simp [hL]⟩),
                by simp [hL], by simp [hL]⟩
          | true =>
              exact ⟨rfl, h2le, h8le, Or.inl rfl,
                Or.inl ⟨by simp [hL], by simp [hL], by simp [hL]⟩,
                by simp [hL], by simp [hL]⟩

set_option maxHeartbeats 2000000 in
/-- **C10 (witness).** 24 adenines again: the record keeps the true
length 24 and the score 7, and `both_rejected` is the one counter that
moves. -/
theorem long_rejection_flags_witness :
    (is_tRNA ext0 seqA24 Stats.zero).2.1.length = seqA24.length ∧
    (is_tRNA ext0 seqA24 Stats.zero).2.2.total_rejected =
      Stats.zero.total_rejected + 1 := by
  have H := long_rejection_flags ext0 seqA24 Stats.zero
    ((is_tRNA ext0 seqA24 Stats.zero).2.1)
    ((is_tRNA ext0 seqA24 Stats.zero).2.2) (by decide) rfl
  exact ⟨H.1, H.2.2.2.2.2.2⟩

/-- **C7.** The trailer split round-trips: an accepted run at offset `i`
keeps `seq[0 : L - i]` as the sequence, the `i` trailing bases as the
trailer, recomputes `length` and `trailer_length` from the two parts, and
concatenating them reconstructs the original input exactly. -/
theorem trailer_split_roundtrip (ext : Extractor) (seq : List Char) (st : Stats)
    (specs : SeqSpecs) (st' : Stats)
    (h : is_tRNA ext seq st = (true, specs, st')) :
    ∃ i, scan seq = .accepted i (mkRecord seq i) ∧ i + 24 ≤ seq.length ∧
      specs.seq = seq.take (seq.length - i) ∧
      specs.three_trailer = seq.drop (seq.length - i) ∧
      specs.length = seq.length - i ∧
      specs.trailer_length = i ∧
      specs.seq ++ specs.three_trailer = seq := by
  obtain ⟨i, hw, hm, hprev, hscan, hspecs, hst'⟩ := is_tRNA_true_inv h
  subst hspecs
  have hi24 : i + 24 ≤ seq.length := by unfold numWindows at hw; omega
  refine ⟨i, hscan, hi24, ?_, ?_, ?_, ?_, ?_⟩
  · unfold handle_pass_seq
    dsimp only
    rw [assign_anticodons_seq, check_full_length_fst_seq]
    rfl
  · unfold handle_pass_seq
    dsimp only
    rw [assign_anticodons_three_trailer, check_full_length_fst_three_trailer]
    rfl
  · unfold handle_pass_seq
    dsimp only
    rw [assign_anticodons_length, check_full_length_fst_length]
    show (seq.take (seq.length - i)).length = seq.length - i
    rw [List.length_take]
    omega
  · unfold handle_pass_seq
    dsimp only
    rw [assign_anticodons_trailer_length, check_full_length_fst_trailer_length]
    show (seq.drop (seq.length - i)).length = i
    rw [List.length_drop]
    omega
  · unfold handle_pass_seq
    dsimp only
    rw [assign_anticodons_seq, assign_anticodons_three_trailer,
      check_full_length_fst_seq, check_full_length_fst_three_trailer]
    show seq.take (seq.length - i) ++ seq.drop (seq.length - i) = seq
    exact List.take_append_drop _ _

set_option maxHeartbeats 2000000 in
/-- **C7 (witness).** The 80-base accepted input round-trips. -/
theorem trailer_split_roundtrip_witness :
    (is_tRNA ext0 fullSeq80 Stats.zero).2.1.seq ++
      (is_tRNA ext0 fullSeq80 Stats.zero).2.1.three_trailer = fullSeq80 := by
  have H := trailer_split_roundtrip ext0 fullSeq80 Stats.zero
    ((is_tRNA ext0 fullSeq80 Stats.zero).2.1)
    ((is_tRNA ext0 fullSeq80 Stats.zero).2.2) rfl
  obtain ⟨i, -, -, -, -, -, -, hcat⟩ := H
  exact hcat

/-- **C8.** After trimming, the accepted record's `full_length` flag is
true exactly when the trimmed length lies strictly between 70 and 100 and
the trimmed sequence has `T` at position 7 and `A` at position 13; the
`total_full_length` counter goes up by one exactly when the flag is set
and is untouched otherwise. -/
theorem full_length_test (ext : Extractor) (seq : List Char) (st : Stats)
    (specs : SeqSpecs) (st' : Stats)
    (h : is_tRNA ext seq st = (true, specs, st')) :
    (specs.full_length = true ↔
      (70 < specs.length ∧ specs.length < 100 ∧
        specs.seq.getD 7 ' ' = 'T' ∧ specs.seq.getD 13 ' ' = 'A')) ∧
    (specs.full_length = true →
      st'.total_full_length = st.total_full_length + 1) ∧
    (specs.full_length = false →
      st'.total_full_length = st.total_full_length) := by
  obtain ⟨i, hw, hm, hprev, hscan, hspecs, hst'⟩ := is_tRNA_true_inv h
  subst hspecs
  subst hst'
  have hfl0 : (split_3_trailer (mkRecord seq i) i).full_length = false := rfl
  obtain ⟨hiff, hinc, hkeep⟩ :=
    check_full_length_spec (split_3_trailer (mkRecord seq i) i)
      (check_divergence_pos (mkRecord seq i)
        { st with total_passed := st.total_passed + 1 }) hfl0
  have hst2 : (check_divergence_pos (mkRecord seq i)
      { st with total_passed := st.total_passed + 1 }).total_full_length
      = st.total_full_length := by
    rw [check_divergence_pos_total_full_length]
  refine ⟨?_, ?_, ?_⟩
  · unfold handle_pass_seq
    dsimp only
    rw [assign_anticodons_full_length, assign_anticodons_length,
      assign_anticodons_seq, check_full_length_fst_length,
      check_full_length_fst_seq]
    exact hiff
  · intro hfl
    unfold handle_pass_seq at hfl ⊢
    dsimp only at hfl ⊢
    rw [assign_anticodons_full_length] at hfl
    rw [hinc hfl]
    dsimp only
    rw [hst2]
  · intro hfl
    unfold handle_pass_seq at hfl ⊢
    dsimp only at hfl ⊢
    rw [assign_anticodons_full_length] at hfl
    rw [hkeep hfl]
    exact hst2

set_option maxHeartbeats 2000000 in
/-- **C8 (witness).** The 80-base accepted input is full-length (position
7 `T`, position 13 `A`, trimmed length 80), and the counter moves. -/
theorem full_length_test_witness :
    (is_tRNA ext0 fullSeq80 Stats.zero).2.2.total_full_length =
      Stats.zero.total_full_length + 1 := by
  have H := full_length_test ext0 fullSeq80 Stats.zero
    ((is_tRNA ext0 fullSeq80 Stats.zero).2.1)
    ((is_tRNA ext0 fullSeq80 Stats.zero).2.2) rfl
  exact H.2.1 (by decide)


/-- Transport of the first-mismatch description along equal t-loop
positional counters. -/
theorem tLoopFirstDivergence_stats_congr {sub : List Char} {st : Stats}
    {A B : Stats}
    (h0 : B.div_at_0 = A.div_at_0) (h1 : B.div_at_1 = A.div_at_1)
    (h2 : B.div_at_2 = A.div_at_2) (h3 : B.div_at_3 = A.div_at_3)
    (h8 : B.div_at_8 = A.div_at_8)
    (hp : tLoopFirstDivergence sub st A) : tLoopFirstDivergence sub st B := by
  unfold tLoopFirstDivergence at hp ⊢
  rw [h0, h1, h2, h3, h8]
  exact hp

/-- Transport of the first-mismatch description along equal acceptor
positional counters. -/
theorem acceptorFirstDivergence_stats_congr {sub : List Char} {st : Stats}
    {A B : Stats}
    (h3 : B.div_at_neg_3 = A.div_at_neg_3) (h2 : B.div_at_neg_2 = A.div_at_neg_2)
    (h1 : B.div_at_neg_1 = A.div_at_neg_1)
    (hp : acceptorFirstDivergence sub st A) :
    acceptorFirstDivergence sub st B := by
  unfold acceptorFirstDivergence at hp ⊢
  rw [h3, h2, h1]
  exact hp

set_option maxHeartbeats 2000000 in
/-- **C6.** Divergence attribution on acceptance is mutually exclusive
and exhaustive: exactly one of `t_loop_divergence`,
`acceptor_divergence`, `no_divergence` goes up (the other two and the
positional counters of the other branch stay put), and in the t-loop
(resp. acceptor) branch exactly the counter of the FIRST mismatching
position of `seq_sub` among 0, 1, 2, 3, 8 against `G,T,T,C,C` (resp.
among -3, -2, -1 against `C,C,A`) goes up. -/
theorem divergence_attribution (ext : Extractor) (seq : List Char) (st : Stats)
    (specs : SeqSpecs) (st' : Stats)
    (h : is_tRNA ext seq st = (true, specs, st')) :
    (specs.t_loop_error = true →
      st'.t_loop_divergence = st.t_loop_divergence + 1 ∧
      st'.acceptor_divergence = st.acceptor_divergence ∧
      st'.no_divergence = st.no_divergence ∧
      st'.div_at_neg_3 = st.div_at_neg_3 ∧
      st'.div_at_neg_2 = st.div_at_neg_2 ∧
      st'.div_at_neg_1 = st.div_at_neg_1 ∧
      tLoopFirstDivergence specs.seq_sub st st') ∧
    (specs.t_loop_error = false → specs.acceptor_error = true →
      st'.acceptor_divergence = st.acceptor_divergence + 1 ∧
      st'.t_loop_divergence = st.t_loop_divergence ∧
      st'.no_divergence = st.no_divergence ∧
      st'.div_at_0 = st.div_at_0 ∧ st'.div_at_1 = st.div_at_1 ∧
      st'.div_at_2 = st.div_at_2 ∧ st'.div_at_3 = st.div_at_3 ∧
      st'.div_at_8 = st.div_at_8 ∧
      acceptorFirstDivergence specs.seq_sub st st') ∧
    (specs.t_loop_error = false → specs.acceptor_error = false →
      st'.no_divergence = st.no_divergence + 1 ∧
      st'.t_loop_divergence = st.t_loop_divergence ∧
      st'.acceptor_divergence = st.acceptor_divergence ∧
      st'.div_at_0 = st.div_at_0 ∧ st'.div_at_1 = st.div_at_1 ∧
      st'.div_at_2 = st.div_at_2 ∧ st'.div_at_3 = st.div_at_3 ∧
      st'.div_at_8 = st.div_at_8 ∧
      st'.div_at_neg_3 = st.div_at_neg_3 ∧
      st'.div_at_neg_2 = st.div_at_neg_2 ∧
      st'.div_at_neg_1 = st.div_at_neg_1) := by
  obtain ⟨i, hw, hm, hprev, hscan, hspecs, hst'⟩ := is_tRNA_true_inv h
  subst hspecs
  subst hst'
  have hsub24 : (subStr seq i).length = 24 := subStr_length hw
  -- what `check_divergence_pos` did, per flag case, relative to the
  -- accepted window's record
  have K1 : (mkRecord seq i).t_loop_error = true →
      (check_divergence_pos (mkRecord seq i)
          { st with total_passed := st.total_passed + 1 }).t_loop_divergence
        = st.t_loop_divergence + 1 ∧
      (check_divergence_pos (mkRecord seq i)
          { st with total_passed := st.total_passed + 1 }).acceptor_divergence
        = st.acceptor_divergence ∧
      (check_divergence_pos (mkRecord seq i)
          { st with total_passed := st.total_passed + 1 }).no_divergence
        = st.no_divergence ∧
      (check_divergence_pos (mkRecord seq i)
          { st with total_passed := st.total_passed + 1 }).div_at_neg_3
        = st.div_at_neg_3 ∧
      (check_divergence_pos (mkRecord seq i)
          { st with total_passed := st.total_passed + 1 }).div_at_neg_2
        = st.div_at_neg_2 ∧
      (check_divergence_pos (mkRecord seq i)
          { st with total_passed := st.total_passed + 1 }).div_at_neg_1
        = st.div_at_neg_1 ∧
      tLoopFirstDivergence (mkRecord seq i).seq_sub st
        (check_divergence_pos (mkRecord seq i)
          { st with total_passed := st.total_passed + 1 }) := by
    intro hbt
    have h1le : 1 ≤ tLoopDist seq i := (mkRecord_t_loop_error seq i).mp hbt
    have hnotall : ¬((mkRecord seq i).seq_sub.getD 0 ' ' = 'G' ∧
        (mkRecord seq i).seq_sub.getD 1 ' ' = 'T' ∧
        (mkRecord seq i).seq_sub.getD 2 ' ' = 'T' ∧
        (mkRecord seq i).seq_sub.getD 3 ' ' = 'C' ∧
        (mkRecord seq i).seq_sub.getD 8 ' ' = 'C') := by
      intro hall
      obtain ⟨ha0, ha1, ha2, ha3, ha8⟩ := hall
      have h0 := tLoopDist_eq_zero_of_match hw ha0 ha1 ha2 ha3 ha8
      omega
    exact check_divergence_pos_tloop (mkRecord seq i)
      { st with total_passed := st.total_passed + 1 } hbt hnotall
  have K2 : (mkRecord seq i).t_loop_error = false →
      (mkRecord seq i).acceptor_error = true →
      (check_divergence_pos (mkRecord seq i)
          { st with total_passed := st.total_passed + 1 }).acceptor_divergence
        = st.acceptor_divergence + 1 ∧
      (check_divergence_pos (mkRecord seq i)
          { st with total_passed := st.total_passed + 1 }).t_loop_divergence
        = st.t_loop_divergence ∧
      (check_divergence_pos (mkRecord seq i)
          { st with total_passed := st.total_passed + 1 }).no_divergence
        = st.no_divergence ∧
      (check_divergence_pos (mkRecord seq i)
          { st with total_passed := st.total_passed + 1 }).div_at_0
        = st.div_at_0 ∧
      (check_divergence_pos (mkRecord seq i)
          { st with total_passed := st.total_passed + 1 }).div_at_1
        = st.div_at_1 ∧
      (check_divergence_pos (mkRecord seq i)
          { st with total_passed := st.total_passed + 1 }).div_at_2
        = st.div_at_2 ∧
      (check_divergence_pos (mkRecord seq i)
          { st with total_passed := st.total_passed + 1 }).div_at_3
        = st.div_at_3 ∧
      (check_divergence_pos (mkRecord seq i)
          { st with total_passed := st.total_passed + 1 }).div_at_8
        = st.div_at_8 ∧
      acceptorFirstDivergence (mkRecord seq i).seq_sub st
        (check_divergence_pos (mkRecord seq i)
          { st with total_passed := st.total_passed + 1 }) := by
    intro hbt hba
    have h1le : 1 ≤ acceptorDist seq i := (mkRecord_acceptor_error seq i).mp hba
    have hnotall : ¬((mkRecord seq i).seq_sub.getD
          ((mkRecord seq i).seq_sub.length - 3) ' ' = 'C' ∧
        (mkRecord seq i).seq_sub.getD
          ((mkRecord seq i).seq_sub.length - 2) ' ' = 'C' ∧
        (mkRecord seq i).seq_sub.getD
          ((mkRecord seq i).seq_sub.length - 1) ' ' = 'A') := by
      intro hall
      obtain ⟨ha3, ha2, ha1⟩ := hall
      have h0 := acceptorDist_eq_zero_of_match hw ha3 ha2 ha1
      omega
    exact check_divergence_pos_acceptor (mkRecord seq i)
      { st with total_passed := st.total_passed + 1 } hbt hba hnotall
  have K3 : (mkRecord seq i).t_loop_error = false →
      (mkRecord seq i).acceptor_error = false →
      check_divergence_pos (mkRecord seq i)
          { st with total_passed := st.total_passed + 1 }
        = { { st with total_passed := st.total_passed + 1 } with
            no_divergence :=
              ({ st with total_passed := st.total_passed + 1 }).no_divergence + 1 } :=
    fun hbt hba => check_divergence_pos_none (mkRecord seq i)
      { st with total_passed := st.total_passed + 1 } hbt hba
  unfold handle_pass_seq
  dsimp only
  simp only [assign_anticodons_t_loop_error, assign_anticodons_acceptor_error,
    assign_anticodons_seq_sub, check_full_length_fst_t_loop_error,
    check_full_length_fst_acceptor_error, check_full_length_fst_seq_sub,
    split_3_trailer_t_loop_error, split_3_trailer_acceptor_error,
    split_3_trailer_seq_sub]
  refine ⟨fun hbt => ?_, fun hbt hba => ?_, fun hbt hba => ?_⟩
  · obtain ⟨c1, c2, c3, c4, c5, c6, c7⟩ := K1 hbt
    refine ⟨?_, ?_, ?_, ?_, ?_, ?_, ?_⟩
    · rw [check_full_length_snd_t_loop_divergence]; exact c1
    · rw [check_full_length_snd_acceptor_divergence]; exact c2
    · rw [check_full_length_snd_no_divergence]; exact c3
    · rw [check_full_length_snd_div_at_neg_3]; exact c4
    · rw [check_full_length_snd_div_at_neg_2]; exact c5
    · rw [check_full_length_snd_div_at_neg_1]; exact c6
    · exact tLoopFirstDivergence_stats_congr
        (check_full_length_snd_div_at_0 _ _) (check_full_length_snd_div_at_1 _ _)
        (check_full_length_snd_div_at_2 _ _) (check_full_length_snd_div_at_3 _ _)
        (check_full_length_snd_div_at_8 _ _) c7
  · obtain ⟨c1, c2, c3, c4, c5, c6, c7, c8, c9⟩ := K2 hbt hba
    refine ⟨?_, ?_, ?_, ?_, ?_, ?_, ?_, ?_, ?_⟩
    · rw [check_full_length_snd_acceptor_divergence]; exact c1
    · rw [check_full_length_snd_t_loop_divergence]; exact c2
    · rw [check_full_length_snd_no_divergence]; exact c3
    · rw [check_full_length_snd_div_at_0]; exact c4
    · rw [check_full_length_snd_div_at_1]; exact c5
    · rw [check_full_length_snd_div_at_2]; exact c6
    · rw [check_full_length_snd_div_at_3]; exact c7
    · rw [check_full_length_snd_div_at_8]; exact c8
    · exact acceptorFirstDivergence_stats_congr
        (check_full_length_snd_div_at_neg_3 _ _)
        (check_full_length_snd_div_at_neg_2 _ _)
        (check_full_length_snd_div_at_neg_1 _ _) c9
  · have hK := K3 hbt hba
    refine ⟨?_, ?_, ?_, ?_, ?_, ?_, ?_, ?_, ?_, ?_, ?_⟩
    · rw [check_full_length_snd_no_divergence, hK]
    · rw [check_full_length_snd_t_loop_divergence, hK]
    · rw [check_full_length_snd_acceptor_divergence, hK]
    · rw [check_full_length_snd_div_at_0, hK]
    · rw [check_full_length_snd_div_at_1, hK]
    · rw [check_full_length_snd_div_at_2, hK]
    · rw [check_full_length_snd_div_at_3, hK]
    · rw [check_full_length_snd_div_at_8, hK]
    · rw [check_full_length_snd_div_at_neg_3, hK]
    · rw [check_full_length_snd_div_at_neg_2, hK]
    · rw [check_full_length_snd_div_at_neg_1, hK]

set_option maxHeartbeats 2000000 in
/-- **C6 (witness).** The canonical 24-base motif: both flags down, so
`no_divergence` is the one attribution counter that moves. -/
theorem divergence_attribution_witness :
    (is_tRNA ext0 w24 Stats.zero).2.2.no_divergence =
      Stats.zero.no_divergence + 1 := by
  have H := divergence_attribution ext0 w24 Stats.zero
    ((is_tRNA ext0 w24 Stats.zero).2.1) ((is_tRNA ext0 w24 Stats.zero).2.2) rfl
  exact (H.2.2 (by decide) (by decide)).1

end tRNASeqTools
